import Mathlib

/-!
# Ferris-Forums: verification of the user and comment API cores

Shallow embedding of `src/api/user.rs` and `src/api/comment.rs`.
The persistence layer (`repo::user`, `repo::comment`) and the model layer
(`model::user`, `model::comment`) are not part of the provided sources, so
they are modelled from the specification (see the doc comments marked
`Modelled from the spec:`); the API handlers themselves are translated
directly from the Rust source.

The store is a value of type `Db`; each handler is a function from the
current store (plus the environmental inputs the Rust code draws from the
outside world: the hashing primitive's fresh salt and possible failure,
`Utc::now()`, `Uuid::new_v4()`, store I/O success) to a result and the new
store.  Machine integers (`i32` user ids) are modelled as `Nat` since no
arithmetic is performed on them; `Uuid` values are modelled as `Nat` tokens;
timestamps as `Nat`.
-/

/-- Modelled from the spec: the error taxonomy of §7 (`repo` and `model`
layers are absent from the sources).  `NotFound` (lookup found nothing),
`UniqueViolation` (duplicate username), `HashingError` (credential
derivation/verification primitive failure), `PersistenceError` (any other
store I/O failure). -/
inductive ApiError where
  | notFound
  | uniqueViolation
  | hashingError
  | persistenceError
deriving DecidableEq, Repr

/-- Modelled from the spec: the stored credential of `model::user`.  The
hash "must encode its own salt and algorithm parameters so verification is
self-describing" (§4.1); it is a one-way value derived from a salt and the
password, and verification with attempt `a` against the hash derived from
password `p` succeeds exactly when `a = p`.  We record the deriving salt
and password as the mathematical characterisation of that contract. -/
structure Hash where
  salt : Nat
  pw : String
deriving DecidableEq, Repr

/-- Environmental inputs drawn by the hashing primitive on one call: the
fresh random salt, and whether the primitive fails on this call. -/
structure HashEnv where
  salt : Nat
  fails : Bool
deriving DecidableEq, Repr

/-- Modelled from the spec: `User::hash_password` of `model::user` —
"derives `password_hash` from `plaintext_password` using a salted ...
one-way hashing algorithm ... generating a fresh random salt per call;
fails with `HashingError` if the hashing primitive fails" (§4.1). -/
def hash_password (p : String) (env : HashEnv) : Except ApiError Hash :=
  if env.fails then .error .hashingError else .ok ⟨env.salt, p⟩

/-- Modelled from the spec: `User::verify_password`'s comparison of an
attempt against a stored hash — "recomputes the verification using the
same salted scheme" (§4.1): the attempt verifies iff it equals the
password the hash was derived from. -/
def verify_hash (h : Hash) (attempt : String) : Bool :=
  h.pw == attempt

/-- The `users` table row (`model::user::User`): store-assigned integer id,
username, stored credential, moderator flag, creation timestamp. -/
structure User where
  id : Nat
  username : String
  password_hash : Hash
  is_moderator : Bool
  created_at : Nat
deriving DecidableEq, Repr

/-- `model::user::NewUser`: the request body of `POST /users`. -/
structure NewUser where
  username : String
  password : String
  is_moderator : Bool
deriving DecidableEq, Repr

/-- `model::user::DbAddUser`: the row handed to the store by `create_user`
(the id is assigned by the store, not part of this value). -/
structure DbAddUser where
  username : String
  password_hash : Hash
  is_moderator : Bool
  created_at : Nat
deriving DecidableEq, Repr

/-- The `comments` table row (`model::comment::Comment`), exactly the
struct built in `create_comment`: core-generated id, owning post, author,
content, core-generated creation timestamp, optional parent comment. -/
structure Comment where
  id : Nat
  post_id : Nat
  user_id : Nat
  content : String
  timestamp : Nat
  parent_id : Option Nat
deriving DecidableEq, Repr

/-- `model::comment::NewComment`: the request body of
`POST /posts/{post_id}/comments`. -/
structure NewComment where
  user_id : Nat
  content : String
  parent_id : Option Nat
deriving DecidableEq, Repr

/-- The relational store: the `users` table with the store's id sequence,
and the `comments` table.  Rows are kept in insertion order. -/
structure Db where
  users : List User
  nextUserId : Nat
  comments : List Comment
deriving DecidableEq, Repr

namespace user_repo

/-- Modelled from the spec: `SelectUserById` (§6) — lookup by primary
key. -/
def select_user_by_id (db : Db) (id : Nat) : Option User :=
  db.users.find? (fun u => u.id == id)

/-- Modelled from the spec: `repo::user::create_user` — "durable row
insertion with an identifier issued by the store", failing with a
uniqueness violation on a duplicate `username` (§4.1, §6). -/
def create_user (db : Db) (u : DbAddUser) : Except ApiError (Nat × Db) :=
  if db.users.any (fun w => w.username == u.username) then
    .error .uniqueViolation
  else
    .ok (db.nextUserId,
      { db with
        users := db.users ++
          [⟨db.nextUserId, u.username, u.password_hash, u.is_moderator, u.created_at⟩],
        nextUserId := db.nextUserId + 1 })

/-- Modelled from the spec: `repo::user::get_user_by_id` —
`SelectUserById` surfacing `NotFound` when the lookup finds nothing and
`PersistenceError` on any other store failure (§4.1, §7).  `io_ok` is the
environmental outcome of the store I/O on this call. -/
def get_user_by_id (db : Db) (io_ok : Bool) (id : Nat) : Except ApiError User :=
  if io_ok then
    match select_user_by_id db id with
    | some u => .ok u
    | none => .error .notFound
  else .error .persistenceError

/-- Modelled from the spec: `repo::user::get_user_by_username` — exact
match lookup by username (§4.1). -/
def get_user_by_username (db : Db) (io_ok : Bool) (name : String) : Except ApiError User :=
  if io_ok then
    match db.users.find? (fun u => u.username == name) with
    | some u => .ok u
    | none => .error .notFound
  else .error .persistenceError

/-- Modelled from the spec: `repo::user::grant_mod_status` — sets the
`is_moderator` flag of the row with the given id and returns the id
(§4.1, §6 `UpdateUserModeratorFlag`). -/
def grant_mod_status (db : Db) (id : Nat) : Except ApiError (Nat × Db) :=
  if db.users.any (fun u => u.id == id) then
    .ok (id,
      { db with
        users := db.users.map (fun u =>
          if u.id == id then { u with is_moderator := true } else u) })
  else .error .notFound

/-- Modelled from the spec: `repo::user::remove_mod_status` — clears the
`is_moderator` flag of the row with the given id and returns the id. -/
def remove_mod_status (db : Db) (id : Nat) : Except ApiError (Nat × Db) :=
  if db.users.any (fun u => u.id == id) then
    .ok (id,
      { db with
        users := db.users.map (fun u =>
          if u.id == id then { u with is_moderator := false } else u) })
  else .error .notFound

/-- Modelled from the spec: `repo::user::update_user_password` —
overwrites the stored `password_hash` of the row with the given id (§4.1,
§6 `UpdateUserPasswordHash`). -/
def update_user_password (db : Db) (id : Nat) (h : Hash) : Except ApiError (Nat × Db) :=
  if db.users.any (fun u => u.id == id) then
    .ok (id,
      { db with
        users := db.users.map (fun u =>
          if u.id == id then { u with password_hash := h } else u) })
  else .error .notFound

end user_repo

/-- Modelled from the spec: the serialized view of a `User` delivered
across the boundary — "`password_hash` is never returned to any caller"
(§3), so the outward value carries every field but the credential. -/
structure UserJson where
  id : Nat
  username : String
  is_moderator : Bool
  created_at : Nat
deriving DecidableEq, Repr

/-- Modelled from the spec: serialization of a `User` row for a response
body, omitting `password_hash` (§3 invariant). -/
def userToJson (u : User) : UserJson :=
  ⟨u.id, u.username, u.is_moderator, u.created_at⟩

namespace user_api

/-- `create_user` (`POST /users`, src/api/user.rs lines 7–27): hashes the
body's password — returning the hashing error without touching the store
when the primitive fails — then builds the `DbAddUser` row with
`is_moderator` taken from the body and `created_at := Utc::now()` (the
`now` argument), and issues the single insert; the store-issued id is
returned. -/
def create_user (db : Db) (body : NewUser) (env : HashEnv) (now : Nat) :
    Except ApiError Nat × Db :=
  match hash_password body.password env with
  | .error e => (.error e, db)
  | .ok h =>
    match user_repo.create_user db
        ⟨body.username, h, body.is_moderator, now⟩ with
    | .error e => (.error e, db)
    | .ok (id, db') => (.ok id, db')

/-- `get_user_by_id` (`GET /users/{user_id}`, lines 29–41): fetches the
row and returns its serialized view. -/
def get_user_by_id (db : Db) (io_ok : Bool) (id : Nat) : Except ApiError UserJson :=
  match user_repo.get_user_by_id db io_ok id with
  | .error e => .error e
  | .ok u => .ok (userToJson u)

/-- `get_user_by_username` (`GET /users/{sub_name}`, lines 43–55): fetches
the row by exact username and returns its serialized view. -/
def get_user_by_username (db : Db) (io_ok : Bool) (name : String) :
    Except ApiError UserJson :=
  match user_repo.get_user_by_username db io_ok name with
  | .error e => .error e
  | .ok u => .ok (userToJson u)

/-- `verify_user_password` (`GET /users/auth/{user_id}`, lines 71–91):
fetches the row by id, then compares the request body against the stored
hash. -/
def verify_user_password (db : Db) (io_ok : Bool) (id : Nat) (attempt : String) :
    Except ApiError Bool :=
  match user_repo.get_user_by_id db io_ok id with
  | .error e => .error e
  | .ok u => .ok (verify_hash u.password_hash attempt)

/-- `grant_mod_status` (`PATCH /users/mods/add/{user_id}`, lines
107–119). -/
def grant_mod_status (db : Db) (id : Nat) : Except ApiError Nat × Db :=
  match user_repo.grant_mod_status db id with
  | .error e => (.error e, db)
  | .ok (uid, db') => (.ok uid, db')

/-- `remove_mod_status` (`PATCH /users/mods/remove/{user_id}`, lines
121–133). -/
def remove_mod_status (db : Db) (id : Nat) : Except ApiError Nat × Db :=
  match user_repo.remove_mod_status db id with
  | .error e => (.error e, db)
  | .ok (uid, db') => (.ok uid, db')

/-- `update_user_password` (`PATCH /users/creds/{user_id}`, lines
135–150): re-derives the hash from the new plaintext with a fresh salt,
then overwrites the stored hash. -/
def update_user_password (db : Db) (id : Nat) (newPassword : String) (env : HashEnv) :
    Except ApiError Nat × Db :=
  match hash_password newPassword env with
  | .error e => (.error e, db)
  | .ok h =>
    match user_repo.update_user_password db id h with
    | .error e => (.error e, db)
    | .ok (uid, db') => (.ok uid, db')

end user_api

namespace comment_repo

/-- Modelled from the spec: `repo::comment::create_comment` — the single
insert of the fully-formed, core-identified row; the store does not assign
the id, and the returned `CommentId` is the one the core generated
(§4.2). -/
def create_comment (db : Db) (c : Comment) : Nat × Db :=
  (c.id, { db with comments := db.comments ++ [c] })

/-- Modelled from the spec: `repo::comment::get_comments_by_post` — "all
comments under a post ... insertion/timestamp order (flat list)"
(§4.2). -/
def get_comments_by_post (db : Db) (post_id : Nat) : List Comment :=
  db.comments.filter (fun c => c.post_id == post_id)

/-- Modelled from the spec: `repo::comment::update_comment` — "full
replace of `content`" of the row with the given id, nothing else (§4.2, §6
`UpdateCommentContent`); returns the id. -/
def update_comment (db : Db) (id : Nat) (content : String) : Nat × Db :=
  (id, { db with comments := db.comments.map (fun c =>
    if c.id == id then { c with content := content } else c) })

/-- Modelled from the spec: `repo::comment::delete_comment` — "removes the
row; children referencing it as `parent_id` become orphaned ... no
cascading delete, no re-parenting" (§4.2). -/
def delete_comment (db : Db) (id : Nat) : Db :=
  { db with comments := db.comments.filter (fun c => !(c.id == id)) }

end comment_repo

namespace comment_api

/-- `create_comment` (`POST /posts/{post_id}/comments`, src/api/comment.rs
lines 12–33): the core builds the full `Comment` — id from
`Uuid::new_v4()` (the `genId` argument) and timestamp from `Utc::now()`
(the `now` argument) — before issuing the single insert, and returns the
id the repo echoes back. -/
def create_comment (db : Db) (post_id : Nat) (body : NewComment)
    (genId now : Nat) : Nat × Db :=
  let comment : Comment :=
    ⟨genId, post_id, body.user_id, body.content, now, body.parent_id⟩
  comment_repo.create_comment db comment

/-- `get_comments` (`GET /posts/{post_id}/comments`, lines 35–43). -/
def get_comments (db : Db) (post_id : Nat) : List Comment :=
  comment_repo.get_comments_by_post db post_id

/-- `update_comment` (`PATCH /comments/{comments_id}`, lines 45–59). -/
def update_comment (db : Db) (id : Nat) (body : String) : Nat × Db :=
  comment_repo.update_comment db id body

/-- `delete_comment` (`DELETE /comments/{comment_id}`, lines 61–73). -/
def delete_comment (db : Db) (id : Nat) : Db :=
  comment_repo.delete_comment db id

end comment_api

/-- Rewrites every stored credential of the store through `f`, leaving all
other data unchanged — used to state that responses carrying a `User` are
independent of the stored `password_hash`. -/
def mapHashes (f : Hash → Hash) (db : Db) : Db :=
  { db with users := db.users.map (fun u => { u with password_hash := f u.password_hash }) }

/-! ## Helper lemmas -/

/-- `find?` commutes with mapping a row transformation that does not change
the searched field. -/
theorem find_pred_map (f : User → User) (p : User → Bool)
    (hf : ∀ u, p (f u) = p u) (l : List User) :
    (l.map f).find? p = (l.find? p).map f := by
  rw [List.find?_map]
  have h : (p ∘ f) = p := funext hf
  rw [h]

/-- `any` is invariant under mapping a row transformation that does not
change the tested field. -/
theorem any_pred_map (f : User → User) (p : User → Bool)
    (hf : ∀ u, p (f u) = p u) (l : List User) :
    (l.map f).any p = l.any p := by
  rw [List.any_map]
  have h : (p ∘ f) = p := funext hf
  rw [h]

/-- Mapping a pointwise-idempotent row transformation twice equals mapping
it once. -/
theorem map_pointwise_idem (f : User → User) (hf : ∀ u, f (f u) = f u)
    (l : List User) :
    (l.map f).map f = l.map f := by
  rw [List.map_map]
  have h : (f ∘ f) = f := funext hf
  rw [h]

/-- A row freshly appended to a table in which no row matches its id is
the one `find?` by that id returns. -/
theorem find_append_fresh (l : List User) (u : User) (i : Nat)
    (hl : l.any (fun w => w.id == i) = false) (hu : u.id = i) :
    (l ++ [u]).find? (fun w => w.id == i) = some u := by
  rw [List.find?_append]
  have h1 : l.find? (fun w => w.id == i) = none := by
    rw [List.find?_eq_none]
    intro x hx
    simp [List.any_eq_false.mp hl x hx]
  rw [h1]
  simp [List.find?, hu]

/-- A table in which some row matches the id yields a `find?` witness whose
id is that id. -/
theorem find_of_any (l : List User) (i : Nat)
    (h : l.any (fun u => u.id == i) = true) :
    ∃ u, l.find? (fun u => u.id == i) = some u ∧ u.id = i := by
  have hs : (l.find? (fun u => u.id == i)).isSome := by
    rw [List.find?_isSome]
    simpa using List.any_eq_true.mp h
  cases hfind : l.find? (fun u => u.id == i) with
  | none => rw [hfind] at hs; simp at hs
  | some u =>
    refine ⟨u, rfl, ?_⟩
    have := List.find?_some hfind
    simpa using this

/-! ## Theorems for the claims -/

/-- C2: for every `CreateComment` call, the comment's identifier and its
creation timestamp are generated by the core before the single insert is
issued — the handler builds the full row from `Uuid::new_v4()` (`genId`)
and `Utc::now()` (`now`) and the store receives exactly that row, appended
by one insert — and the returned `CommentId` is the core-generated id,
known synchronously to the caller. -/
theorem C2_core_generated_comment_identity (db : Db) (post_id : Nat)
    (body : NewComment) (genId now : Nat) :
    (comment_api.create_comment db post_id body genId now).1 = genId
    ∧ (comment_api.create_comment db post_id body genId now).2.comments
      = db.comments ++
        [⟨genId, post_id, body.user_id, body.content, now, body.parent_id⟩]
    ∧ (comment_api.create_comment db post_id body genId now).2.users = db.users :=
  ⟨rfl, rfl, rfl⟩

/-- C3: after a successful `CreateComment(postId, userId, content,
parentId?)` returning `genId`, `GetCommentsByPost(postId)` includes a
comment with that id whose content, author and parent equal the values
given at creation. -/
theorem C3_create_then_get_comments (db : Db) (post_id : Nat)
    (body : NewComment) (genId now : Nat) :
    (comment_api.create_comment db post_id body genId now).1 = genId
    ∧ ∃ c ∈ comment_api.get_comments
        (comment_api.create_comment db post_id body genId now).2 post_id,
        c.id = genId ∧ c.content = body.content ∧ c.user_id = body.user_id
          ∧ c.parent_id = body.parent_id := by
  refine ⟨rfl,
    ⟨genId, post_id, body.user_id, body.content, now, body.parent_id⟩,
    ?_, rfl, rfl, rfl, rfl⟩
  simp [comment_api.get_comments, comment_repo.get_comments_by_post,
    comment_api.create_comment, comment_repo.create_comment, List.mem_filter]

/-- C10: if password hashing fails during `CreateUser`, the operation
returns the hashing error and the store state is unchanged — the hash is
computed strictly before any persistence call is issued. -/
theorem C10_hash_failure_leaves_store_unchanged (db : Db) (body : NewUser)
    (salt now : Nat) :
    user_api.create_user db body ⟨salt, true⟩ now = (.error .hashingError, db) :=
  rfl

/-- C9: `GetUserById` returns the (serialized) user when the lookup finds
a row, a `NotFound` failure when the lookup finds nothing, and a
`PersistenceError` on any other store failure; `NotFound` is a failure
kind distinct from `PersistenceError`. -/
theorem C9_get_user_error_taxonomy (db : Db) (id : Nat) :
    user_api.get_user_by_id db false id = .error .persistenceError
    ∧ (user_repo.select_user_by_id db id = none →
        user_api.get_user_by_id db true id = .error .notFound)
    ∧ (∀ u, user_repo.select_user_by_id db id = some u →
        user_api.get_user_by_id db true id = .ok (userToJson u))
    ∧ ApiError.notFound ≠ ApiError.persistenceError := by
  refine ⟨rfl, ?_, ?_, by decide⟩
  · intro h
    simp [user_api.get_user_by_id, user_repo.get_user_by_id, h]
  · intro u h
    simp [user_api.get_user_by_id, user_repo.get_user_by_id, h]

/-- Witness for C9: on a concrete store, a missing id surfaces as
`NotFound` while an I/O failure surfaces as `PersistenceError`, and a
present id is returned. -/
theorem C9_get_user_error_taxonomy_witness :
    user_api.get_user_by_id (⟨[], 0, []⟩ : Db) true 5 = .error .notFound
    ∧ user_api.get_user_by_id (⟨[], 0, []⟩ : Db) false 5 = .error .persistenceError
    ∧ user_api.get_user_by_id (⟨[⟨5, "a", ⟨0, "p"⟩, false, 0⟩], 6, []⟩ : Db) true 5
      = .ok (userToJson ⟨5, "a", ⟨0, "p"⟩, false, 0⟩) :=
  ⟨(C9_get_user_error_taxonomy (⟨[], 0, []⟩ : Db) 5).2.1 rfl,
   (C9_get_user_error_taxonomy (⟨[], 0, []⟩ : Db) 5).1,
   (C9_get_user_error_taxonomy (⟨[⟨5, "a", ⟨0, "p"⟩, false, 0⟩], 6, []⟩ : Db) 5).2.2.1
     _ rfl⟩

/-- State equation for `grant_mod_status` on a store containing the id. -/
theorem grant_mod_state (db : Db) (i : Nat)
    (h : db.users.any (fun u => u.id == i) = true) :
    user_api.grant_mod_status db i
      = (.ok i, { db with users := db.users.map (fun u =>
          if u.id == i then { u with is_moderator := true } else u) }) := by
  simp [user_api.grant_mod_status, user_repo.grant_mod_status, h]

/-- State equation for `remove_mod_status` on a store containing the id. -/
theorem remove_mod_state (db : Db) (i : Nat)
    (h : db.users.any (fun u => u.id == i) = true) :
    user_api.remove_mod_status db i
      = (.ok i, { db with users := db.users.map (fun u =>
          if u.id == i then { u with is_moderator := false } else u) }) := by
  simp [user_api.remove_mod_status, user_repo.remove_mod_status, h]

/-- State equation for `update_user_password` on a store containing the
id, when the hashing primitive succeeds with salt `salt`. -/
theorem update_password_state (db : Db) (i : Nat) (p : String) (salt : Nat)
    (h : db.users.any (fun u => u.id == i) = true) :
    user_api.update_user_password db i p ⟨salt, false⟩
      = (.ok i, { db with users := db.users.map (fun u =>
          if u.id == i then { u with password_hash := ⟨salt, p⟩ } else u) }) := by
  simp [user_api.update_user_password, hash_password,
    user_repo.update_user_password, h]

/-- State equation for `create_user` when the hashing primitive succeeds
and the username is not yet taken. -/
theorem create_user_state (db : Db) (body : NewUser) (salt now : Nat)
    (h : db.users.any (fun w => w.username == body.username) = false) :
    user_api.create_user db body ⟨salt, false⟩ now
      = (.ok db.nextUserId,
         { db with
           users := db.users ++
             [⟨db.nextUserId, body.username, ⟨salt, body.password⟩,
               body.is_moderator, now⟩],
           nextUserId := db.nextUserId + 1 }) := by
  simp [user_api.create_user, hash_password, user_repo.create_user, h]

/-- `verify_user_password` on a store whose lookup finds row `u` compares
the attempt against `u`'s stored hash. -/
theorem verify_found (db : Db) (i : Nat) (u : User) (attempt : String)
    (hu : db.users.find? (fun w => w.id == i) = some u) :
    user_api.verify_user_password db true i attempt
      = .ok (verify_hash u.password_hash attempt) := by
  simp [user_api.verify_user_password, user_repo.get_user_by_id,
    user_repo.select_user_by_id, hu]

/-- `get_user_by_id` on a store whose rows were mapped through an
id-preserving transformation returns the transformed found row. -/
theorem get_user_by_id_map_found (db : Db) (i : Nat) (f : User → User)
    (u : User) (hf : ∀ w, ((f w).id == i) = (w.id == i))
    (hu : db.users.find? (fun w => w.id == i) = some u) :
    user_api.get_user_by_id { db with users := db.users.map f } true i
      = .ok (userToJson (f u)) := by
  simp only [user_api.get_user_by_id, user_repo.get_user_by_id,
    user_repo.select_user_by_id]
  rw [find_pred_map f _ hf, hu]
  simp

/-- C8: the value delivered across the boundary by the operations that
return a `User` (`GetUserById`, `GetUserByUsername`) does not contain the
stored password hash: the response is invariant under arbitrarily
rewriting every stored credential. -/
theorem C8_password_hash_never_returned (f : Hash → Hash) (db : Db)
    (io_ok : Bool) (i : Nat) (name : String) :
    user_api.get_user_by_id (mapHashes f db) io_ok i
      = user_api.get_user_by_id db io_ok i
    ∧ user_api.get_user_by_username (mapHashes f db) io_ok name
      = user_api.get_user_by_username db io_ok name := by
  constructor
  · cases io_ok with
    | false => rfl
    | true =>
      simp only [user_api.get_user_by_id, user_repo.get_user_by_id,
        user_repo.select_user_by_id, mapHashes]
      rw [find_pred_map (fun u => { u with password_hash := f u.password_hash })
        (fun u => u.id == i) (fun u => rfl)]
      cases db.users.find? (fun u => u.id == i) with
      | none => rfl
      | some u => rfl
  · cases io_ok with
    | false => rfl
    | true =>
      simp only [user_api.get_user_by_username, user_repo.get_user_by_username,
        mapHashes]
      rw [find_pred_map (fun u => { u with password_hash := f u.password_hash })
        (fun u => u.username == name) (fun u => rfl)]
      cases db.users.find? (fun u => u.username == name) with
      | none => rfl
      | some u => rfl

/-- C4: for an existing user id, `GrantModeratorStatus` then `GetUserById`
shows `is_moderator == true`; `RevokeModeratorStatus` applied next reverts
it to `false`; and each operation is idempotent — applying it twice yields
the same store state as applying it once. -/
theorem C4_moderator_grant_revoke_idempotent (db : Db) (i : Nat)
    (huser : db.users.any (fun u => u.id == i) = true) :
    (∃ v, user_api.get_user_by_id (user_api.grant_mod_status db i).2 true i = .ok v
       ∧ v.is_moderator = true)
    ∧ (∃ w, user_api.get_user_by_id
          (user_api.remove_mod_status (user_api.grant_mod_status db i).2 i).2 true i
          = .ok w ∧ w.is_moderator = false)
    ∧ (user_api.grant_mod_status (user_api.grant_mod_status db i).2 i).2
       = (user_api.grant_mod_status db i).2
    ∧ (user_api.remove_mod_status (user_api.remove_mod_status db i).2 i).2
       = (user_api.remove_mod_status db i).2 := by
  have hgid : ∀ u : User,
      (((if u.id == i then { u with is_moderator := true } else u) : User).id == i)
        = (u.id == i) := by
    intro u
    cases hb : u.id == i <;> simp [hb]
  have hrid : ∀ u : User,
      (((if u.id == i then { u with is_moderator := false } else u) : User).id == i)
        = (u.id == i) := by
    intro u
    cases hb : u.id == i <;> simp [hb]
  obtain ⟨u₀, hu₀, hu₀id⟩ := find_of_any db.users i huser
  have hbeq : (u₀.id == i) = true := by simp [hu₀id]
  rw [grant_mod_state db i huser]
  have hany1 : (db.users.map (fun u =>
      if u.id == i then { u with is_moderator := true } else u)).any
      (fun u => u.id == i) = true := by
    rw [any_pred_map _ _ hgid]
    exact huser
  refine ⟨?_, ?_, ?_, ?_⟩
  · refine ⟨userToJson { u₀ with is_moderator := true }, ?_, rfl⟩
    have := get_user_by_id_map_found db i
      (fun u => if u.id == i then { u with is_moderator := true } else u) u₀ hgid hu₀
    rw [this]
    show Except.ok (userToJson (if (u₀.id == i) = true
        then ({ u₀ with is_moderator := true } : User) else u₀))
      = Except.ok (userToJson { u₀ with is_moderator := true })
    rw [if_pos hbeq]
  · rw [remove_mod_state _ i hany1]
    refine ⟨userToJson { u₀ with is_moderator := false }, ?_, rfl⟩
    have hfind1 : (db.users.map (fun u =>
        if u.id == i then { u with is_moderator := true } else u)).find?
        (fun w => w.id == i) = some { u₀ with is_moderator := true } := by
      rw [find_pred_map _ _ hgid, hu₀, Option.map_some', if_pos hbeq]
    have := get_user_by_id_map_found
      { db with users := db.users.map (fun u =>
          if u.id == i then { u with is_moderator := true } else u) } i
      (fun u => if u.id == i then { u with is_moderator := false } else u)
      { u₀ with is_moderator := true } hrid hfind1
    rw [this]
    show Except.ok (userToJson (if (u₀.id == i) = true
        then ({ u₀ with is_moderator := false } : User)
        else { u₀ with is_moderator := true }))
      = Except.ok (userToJson { u₀ with is_moderator := false })
    rw [if_pos hbeq]
  · rw [grant_mod_state _ i hany1]
    have : ((db.users.map (fun u =>
        if u.id == i then { u with is_moderator := true } else u)).map (fun u =>
        if u.id == i then { u with is_moderator := true } else u))
        = db.users.map (fun u =>
          if u.id == i then { u with is_moderator := true } else u) := by
      refine map_pointwise_idem _ ?_ db.users
      intro u
      cases hb : u.id == i <;> simp [hb]
    rw [this]
  · rw [remove_mod_state db i huser]
    have hany2 : (db.users.map (fun u =>
        if u.id == i then { u with is_moderator := false } else u)).any
        (fun u => u.id == i) = true := by
      rw [any_pred_map _ _ hrid]
      exact huser
    rw [remove_mod_state _ i hany2]
    have : ((db.users.map (fun u =>
        if u.id == i then { u with is_moderator := false } else u)).map (fun u =>
        if u.id == i then { u with is_moderator := false } else u))
        = db.users.map (fun u =>
          if u.id == i then { u with is_moderator := false } else u) := by
      refine map_pointwise_idem _ ?_ db.users
      intro u
      cases hb : u.id == i <;> simp [hb]
    rw [this]

/-- Witness for C4: on a one-user store, granting makes `GetUserById` show
the flag, revoking clears it, and both operations are idempotent. -/
theorem C4_moderator_grant_revoke_idempotent_witness :
    (∃ v, user_api.get_user_by_id
        (user_api.grant_mod_status (⟨[⟨7, "bob", ⟨0, "x"⟩, false, 0⟩], 8, []⟩ : Db) 7).2
        true 7 = .ok v ∧ v.is_moderator = true)
    ∧ (∃ w, user_api.get_user_by_id
        (user_api.remove_mod_status
          (user_api.grant_mod_status (⟨[⟨7, "bob", ⟨0, "x"⟩, false, 0⟩], 8, []⟩ : Db) 7).2
          7).2 true 7 = .ok w ∧ w.is_moderator = false)
    ∧ (user_api.grant_mod_status
        (user_api.grant_mod_status (⟨[⟨7, "bob", ⟨0, "x"⟩, false, 0⟩], 8, []⟩ : Db) 7).2 7).2
       = (user_api.grant_mod_status (⟨[⟨7, "bob", ⟨0, "x"⟩, false, 0⟩], 8, []⟩ : Db) 7).2
    ∧ (user_api.remove_mod_status
        (user_api.remove_mod_status (⟨[⟨7, "bob", ⟨0, "x"⟩, false, 0⟩], 8, []⟩ : Db) 7).2 7).2
       = (user_api.remove_mod_status (⟨[⟨7, "bob", ⟨0, "x"⟩, false, 0⟩], 8, []⟩ : Db) 7).2 :=
  C4_moderator_grant_revoke_idempotent (⟨[⟨7, "bob", ⟨0, "x"⟩, false, 0⟩], 8, []⟩ : Db) 7
    (by decide)

/-- C5: `UpdateComment(id, newContent)` replaces only the `content` field
of the comment with that id — the subsequent fetch shows the new content
with the comment's id, timestamp, post, author and parent unchanged — and
every other comment is unaffected. -/
theorem C5_update_comment_replaces_only_content (db : Db) (i : Nat)
    (newContent : String) (c : Comment) (hc : c ∈ db.comments)
    (hcid : c.id = i) :
    (comment_api.update_comment db i newContent).1 = i
    ∧ ({ c with content := newContent } : Comment)
        ∈ comment_api.get_comments (comment_api.update_comment db i newContent).2
            c.post_id
    ∧ (∀ c' ∈ db.comments, c'.id ≠ i →
        c' ∈ (comment_api.update_comment db i newContent).2.comments) := by
  have hbeq : (c.id == i) = true := by simp [hcid]
  refine ⟨rfl, ?_, ?_⟩
  · have hmem : ({ c with content := newContent } : Comment)
        ∈ (comment_api.update_comment db i newContent).2.comments := by
      have := List.mem_map_of_mem
        (fun w : Comment => if w.id == i then { w with content := newContent } else w) hc
      simpa [comment_api.update_comment, comment_repo.update_comment, hbeq] using this
    simp only [comment_api.get_comments, comment_repo.get_comments_by_post]
    exact List.mem_filter.mpr ⟨hmem, by simp⟩
  · intro c' hc' hne
    have hbeq' : (c'.id == i) = false := by simp [hne]
    have := List.mem_map_of_mem
      (fun w : Comment => if w.id == i then { w with content := newContent } else w) hc'
    simpa [comment_api.update_comment, comment_repo.update_comment, hbeq'] using this

/-- Witness for C5: on a two-comment store, updating comment `1` rewrites
its content in the fetch, keeps its timestamp and parent, and leaves
comment `2` untouched. -/
theorem C5_update_comment_replaces_only_content_witness :
    (comment_api.update_comment
        (⟨[], 0, [⟨1, 9, 4, "old", 11, none⟩, ⟨2, 9, 4, "b", 12, some 1⟩]⟩ : Db)
        1 "new").1 = 1
    ∧ (⟨1, 9, 4, "new", 11, none⟩ : Comment)
        ∈ comment_api.get_comments
            (comment_api.update_comment
              (⟨[], 0, [⟨1, 9, 4, "old", 11, none⟩, ⟨2, 9, 4, "b", 12, some 1⟩]⟩ : Db)
              1 "new").2 9
    ∧ (⟨2, 9, 4, "b", 12, some 1⟩ : Comment)
        ∈ (comment_api.update_comment
            (⟨[], 0, [⟨1, 9, 4, "old", 11, none⟩, ⟨2, 9, 4, "b", 12, some 1⟩]⟩ : Db)
            1 "new").2.comments := by
  have h := C5_update_comment_replaces_only_content
    (⟨[], 0, [⟨1, 9, 4, "old", 11, none⟩, ⟨2, 9, 4, "b", 12, some 1⟩]⟩ : Db)
    1 "new" ⟨1, 9, 4, "old", 11, none⟩ (by decide) rfl
  exact ⟨h.1, h.2.1, h.2.2 ⟨2, 9, 4, "b", 12, some 1⟩ (by decide) (by decide)⟩

/-- C6: `DeleteComment(id)` removes exactly that comment — no fetch
includes the id afterwards, a child whose `parent_id` was that id still
appears under its post (orphaned), every other comment survives, and no
comment is added: no cascading delete and no re-parenting occurs. -/
theorem C6_delete_comment_orphans_children (db : Db) (i : Nat)
    (child : Comment) (hchild : child ∈ db.comments)
    (_hpar : child.parent_id = some i) (hne : child.id ≠ i) :
    (∀ pid, ∀ c ∈ comment_api.get_comments (comment_api.delete_comment db i) pid,
        c.id ≠ i)
    ∧ child ∈ comment_api.get_comments (comment_api.delete_comment db i)
        child.post_id
    ∧ (∀ c ∈ db.comments, c.id ≠ i →
        c ∈ (comment_api.delete_comment db i).comments)
    ∧ (∀ c ∈ (comment_api.delete_comment db i).comments, c ∈ db.comments) := by
  refine ⟨?_, ?_, ?_, ?_⟩
  · intro pid c hc
    have hmem : c ∈ db.comments.filter (fun w => !(w.id == i)) := by
      simpa [comment_api.get_comments, comment_repo.get_comments_by_post,
        comment_api.delete_comment, comment_repo.delete_comment,
        List.mem_filter] using (List.mem_filter.mp hc).1
    have := (List.mem_filter.mp hmem).2
    simpa using this
  · simp only [comment_api.get_comments, comment_repo.get_comments_by_post,
      comment_api.delete_comment, comment_repo.delete_comment]
    refine List.mem_filter.mpr ⟨List.mem_filter.mpr ⟨hchild, by simp [hne]⟩, by simp⟩
  · intro c hc hcne
    simp only [comment_api.delete_comment, comment_repo.delete_comment]
    exact List.mem_filter.mpr ⟨hc, by simp [hcne]⟩
  · intro c hc
    have h2 : c ∈ db.comments.filter (fun w => !(w.id == i)) := hc
    exact (List.mem_filter.mp h2).1

/-- Witness for C6: deleting comment `1` removes it from the fetch while
its child `2` (with `parent_id = 1`) still appears, orphaned. -/
theorem C6_delete_comment_orphans_children_witness :
    (∀ c ∈ comment_api.get_comments
        (comment_api.delete_comment
          (⟨[], 0, [⟨1, 9, 4, "a", 11, none⟩, ⟨2, 9, 4, "b", 12, some 1⟩]⟩ : Db) 1) 9,
        c.id ≠ 1)
    ∧ (⟨2, 9, 4, "b", 12, some 1⟩ : Comment)
        ∈ comment_api.get_comments
            (comment_api.delete_comment
              (⟨[], 0, [⟨1, 9, 4, "a", 11, none⟩, ⟨2, 9, 4, "b", 12, some 1⟩]⟩ : Db) 1) 9 := by
  have h := C6_delete_comment_orphans_children
    (⟨[], 0, [⟨1, 9, 4, "a", 11, none⟩, ⟨2, 9, 4, "b", 12, some 1⟩]⟩ : Db)
    1 ⟨2, 9, 4, "b", 12, some 1⟩ (by decide) rfl (by decide)
  exact ⟨h.1 9, h.2.1⟩

/-- Counterexample for C7: a `CreateUser` call whose body carries
`is_moderator = true` inserts a row whose moderator flag is `true`, so it
is not the case that every `CreateUser` call inserts the flag as `false`
— the handler copies `body.is_moderator` into the row. -/
theorem C7_counterexample_flag_copied_from_body :
    ¬ ∀ u ∈ (user_api.create_user (⟨[], 0, []⟩ : Db)
        ⟨"alice", "pw", true⟩ ⟨0, false⟩ 0).2.users,
        u.is_moderator = false := by
  decide

/-- C7 (amended): the row inserted by `CreateUser` carries the moderator
flag supplied in the request body (`NewUser.is_moderator`); it is `false`
exactly when the caller passes `false`, not by default. -/
theorem C7_amended_flag_from_body (db : Db) (body : NewUser) (salt now : Nat)
    (hname : db.users.any (fun w => w.username == body.username) = false) :
    (user_api.create_user db body ⟨salt, false⟩ now).2.users
      = db.users ++ [⟨db.nextUserId, body.username, ⟨salt, body.password⟩,
          body.is_moderator, now⟩] := by
  rw [create_user_state db body salt now hname]

/-- Witness for C7 (amended): on an empty store, creating a user with
`is_moderator = false` inserts the row with the flag `false`. -/
theorem C7_amended_flag_from_body_witness :
    (user_api.create_user (⟨[], 0, []⟩ : Db) ⟨"alice", "pw", false⟩ ⟨3, false⟩ 2).2.users
      = [⟨0, "alice", ⟨3, "pw"⟩, false, 2⟩] :=
  C7_amended_flag_from_body (⟨[], 0, []⟩ : Db) ⟨"alice", "pw", false⟩ 3 2 (by decide)

/-- C1: immediately after `CreateUser` with plaintext password `p` (here
`body.password`), `VerifyPassword` on the new id returns `true` for `p`
and `false` for any attempt `p' ≠ p`; likewise immediately after
`UpdatePassword(i, p)` on an existing user, it returns `true` for `p` and
`false` for any `q' ≠ p`. -/
theorem C1_verify_password_after_create_or_update (db : Db) (body : NewUser)
    (salt now i : Nat) (p p' q' : String)
    (hname : db.users.any (fun w => w.username == body.username) = false)
    (hid : db.users.any (fun w => w.id == db.nextUserId) = false)
    (huser : db.users.any (fun u => u.id == i) = true)
    (hp' : p' ≠ body.password) (hq' : q' ≠ p) :
    ((user_api.create_user db body ⟨salt, false⟩ now).1 = .ok db.nextUserId
      ∧ user_api.verify_user_password
          (user_api.create_user db body ⟨salt, false⟩ now).2
          true db.nextUserId body.password = .ok true
      ∧ user_api.verify_user_password
          (user_api.create_user db body ⟨salt, false⟩ now).2
          true db.nextUserId p' = .ok false)
    ∧ ((user_api.update_user_password db i p ⟨salt, false⟩).1 = .ok i
      ∧ user_api.verify_user_password
          (user_api.update_user_password db i p ⟨salt, false⟩).2
          true i p = .ok true
      ∧ user_api.verify_user_password
          (user_api.update_user_password db i p ⟨salt, false⟩).2
          true i q' = .ok false) := by
  rw [create_user_state db body salt now hname,
    update_password_state db i p salt huser]
  have hfind : ((db.users ++ [(⟨db.nextUserId, body.username,
      ⟨salt, body.password⟩, body.is_moderator, now⟩ : User)]).find?
      (fun w => w.id == db.nextUserId))
      = some (⟨db.nextUserId, body.username, ⟨salt, body.password⟩,
          body.is_moderator, now⟩ : User) :=
    find_append_fresh db.users
      (⟨db.nextUserId, body.username, ⟨salt, body.password⟩,
        body.is_moderator, now⟩ : User) db.nextUserId hid rfl
  obtain ⟨u₀, hu₀, hu₀id⟩ := find_of_any db.users i huser
  have hbeq : (u₀.id == i) = true := by simp [hu₀id]
  have hfid : ∀ u : User,
      (((if u.id == i then { u with password_hash := (⟨salt, p⟩ : Hash) }
          else u) : User).id == i) = (u.id == i) := by
    intro u
    cases hb : u.id == i <;> simp [hb]
  have hfindU : (db.users.map (fun u =>
      if u.id == i then { u with password_hash := (⟨salt, p⟩ : Hash) } else u)).find?
      (fun w => w.id == i) = some { u₀ with password_hash := (⟨salt, p⟩ : Hash) } := by
    rw [find_pred_map _ _ hfid, hu₀, Option.map_some', if_pos hbeq]
  refine ⟨⟨rfl, ?_, ?_⟩, rfl, ?_, ?_⟩
  · rw [verify_found _ db.nextUserId _ body.password hfind]
    simp [verify_hash]
  · rw [verify_found _ db.nextUserId _ p' hfind]
    simp only [verify_hash]
    rw [beq_eq_false_iff_ne.mpr (Ne.symm hp')]
  · rw [verify_found _ i _ p hfindU]
    simp [verify_hash]
  · rw [verify_found _ i _ q' hfindU]
    simp only [verify_hash]
    rw [beq_eq_false_iff_ne.mpr (Ne.symm hq')]

/-- Witness for C1: on a one-user store, creating `alice` with password
`s3cr3t` makes verification succeed for `s3cr3t` and fail for `wrong`,
and updating user `7`'s password to `pw2` makes verification succeed for
`pw2` and fail for `nope`. -/
theorem C1_verify_password_after_create_or_update_witness :
    (user_api.verify_user_password
        (user_api.create_user (⟨[⟨7, "bob", ⟨0, "x"⟩, false, 0⟩], 8, []⟩ : Db)
          ⟨"alice", "s3cr3t", false⟩ ⟨1, false⟩ 5).2
        true 8 "s3cr3t" = .ok true)
    ∧ (user_api.verify_user_password
        (user_api.create_user (⟨[⟨7, "bob", ⟨0, "x"⟩, false, 0⟩], 8, []⟩ : Db)
          ⟨"alice", "s3cr3t", false⟩ ⟨1, false⟩ 5).2
        true 8 "wrong" = .ok false)
    ∧ (user_api.verify_user_password
        (user_api.update_user_password (⟨[⟨7, "bob", ⟨0, "x"⟩, false, 0⟩], 8, []⟩ : Db)
          7 "pw2" ⟨1, false⟩).2
        true 7 "pw2" = .ok true)
    ∧ (user_api.verify_user_password
        (user_api.update_user_password (⟨[⟨7, "bob", ⟨0, "x"⟩, false, 0⟩], 8, []⟩ : Db)
          7 "pw2" ⟨1, false⟩).2
        true 7 "nope" = .ok false) := by
  have h := C1_verify_password_after_create_or_update
    (⟨[⟨7, "bob", ⟨0, "x"⟩, false, 0⟩], 8, []⟩ : Db)
    ⟨"alice", "s3cr3t", false⟩ 1 5 7 "pw2" "wrong" "nope"
    (by decide) (by decide) (by decide) (by decide) (by decide)
  exact ⟨h.1.2.1, h.1.2.2, h.2.2.1, h.2.2.2⟩
